import Mathlib

/-!
Shallow embedding of the campus task-marketplace backend (src/index.js).

Each Express route handler is modelled as a pure function from a database
state `DB` (the Supabase tables) to a new state and an HTTP response.
Supabase query errors are surfaced as return values, never exceptions, so
a handler observes a failure only where the source destructures `error`;
calls whose failure is decided by the environment (connectivity etc.) take
an explicit `Bool` failure flag.  A JavaScript `TypeError` caused by
dereferencing a `null` result is modelled as `Resp.runtimeError`.
JS numbers are modelled as `ℚ`; JS `substring`, `toLowerCase`,
`endsWith` and SQL `ilike '%q%'` / `contains` are modelled on `String` /
`List` as in the definitions below.
-/

namespace Marketplace

/-- Row of the `users` table.  `skills` and `tasks_completed` are database
defaults (empty / 0) not set by the login insert. -/
structure User where
  id : Nat
  phone : String
  name : String
  department : String
  year : String
  email : String
  status : String
  is_verified : Bool
  rating_avg : ℚ
  skills : List String
  tasks_completed : Nat
  deriving DecidableEq, Repr

/-- Row of the `tasks` table.  `created_at` is the insertion timestamp
assigned by the store. -/
structure Task where
  id : Nat
  created_by : Nat
  assigned_to : Option Nat
  title : String
  description : String
  price : ℚ
  location : String
  urgency : String
  category : String
  status : String
  created_at : Nat
  deriving DecidableEq, Repr

/-- Row of the `direct_requests` table. -/
structure DirectRequest where
  id : Nat
  sender_id : Nat
  receiver_id : Nat
  message : String
  price_offer : ℚ
  location_offer : String
  status : String
  deriving DecidableEq, Repr

/-- Row of the `notifications` table; the source column `type` is a Lean
keyword, rendered here as `ntype`. -/
structure Notification where
  id : Nat
  user_id : Nat
  title : String
  message : String
  is_read : Bool
  ntype : String
  target_id : Option Nat
  deriving DecidableEq, Repr

/-- Row of the `reviews` table. -/
structure Review where
  task_id : Nat
  reviewer_id : Nat
  reviewed_user_id : Nat
  rating : ℚ
  comment : String
  deriving DecidableEq, Repr

/-- The Supabase database: one list per table, plus the id/timestamp
counter the store uses for generated columns. -/
structure DB where
  users : List User
  tasks : List Task
  direct_requests : List DirectRequest
  notifications : List Notification
  reviews : List Review
  nextId : Nat
  deriving DecidableEq, Repr

/-- An HTTP response: 200 with a JSON payload, 400 with an error message,
or an unhandled runtime error escaping the handler. -/
inductive Resp (α : Type) where
  | ok : α → Resp α
  | err : String → Resp α
  | runtimeError : Resp α
  deriving DecidableEq, Repr

/-- `COLLEGE_DOMAIN` configuration constant (src/index.js line 16). -/
def COLLEGE_DOMAIN : String := "@gmail.com"

/-- JS `String.prototype.toLowerCase` (ASCII range, as exercised here). -/
def lowerStr (s : String) : String := ⟨s.data.map Char.toLower⟩

/-- JS `String.prototype.endsWith`. -/
def endsWithStr (s suffixStr : String) : Bool :=
  decide (suffixStr.data.IsSuffix s.data)

/-- SQL `ilike '%q%'`: case-insensitive substring match. -/
def ilikeContains (s pat : String) : Bool :=
  decide ((lowerStr pat).data.IsInfix (lowerStr s).data)

/-- `createNotification` (src/index.js lines 20-31): best-effort insert into
`notifications`; the `try`/`catch` swallows any failure, so the function
returns only a state and cannot signal an error to its caller. -/
def createNotification (db : DB) (userId : Nat) (title message ty : String)
    (targetId : Option Nat) (insertFails : Bool) : DB :=
  if insertFails then db
  else
    { db with
      notifications := db.notifications ++
        [{ id := db.nextId, user_id := userId, title := title,
           message := message, is_read := false, ntype := ty,
           target_id := targetId }],
      nextId := db.nextId + 1 }

/-- Lookup backing `POST /login`: `.eq('phone', phone).single()`. -/
def findUserByPhone (db : DB) (phone : String) : Option User :=
  db.users.find? (fun u => u.phone == phone)

/-- `POST /login` (src/index.js lines 36-59).  A missing `email` in the JSON
body and an empty string are both falsy in `!email`, modelled as `""`. -/
def login (db : DB) (phone name department year email : String)
    (insertFails : Bool) : DB × Resp User :=
  match findUserByPhone db phone with
  | some u => (db, Resp.ok u)
  | none =>
    if email = "" then (db, Resp.err "College Email is required.")
    else if !(endsWithStr (lowerStr email) COLLEGE_DOMAIN) then
      (db, Resp.err ("Must use an official " ++ COLLEGE_DOMAIN ++ " email."))
    else if insertFails then (db, Resp.err "insert failed")
    else
      let newUser : User :=
        { id := db.nextId, phone := phone, name := name,
          department := department, year := year, email := email,
          status := "available", is_verified := true, rating_avg := 5,
          skills := [], tasks_completed := 0 }
      ({ db with users := db.users ++ [newUser], nextId := db.nextId + 1 },
       Resp.ok newUser)

/-- `PUT /tasks/:taskId/complete` (src/index.js lines 112-135).  The
`update.eq('id', taskId).select().single()` yields an error when no row
matched; only on success is the creator notified (best-effort) and the
success message returned. -/
def completeTask (db : DB) (taskId : Nat) (notifFails : Bool) :
    DB × Resp String :=
  match db.tasks.find? (fun t => t.id == taskId) with
  | none => (db, Resp.err "single row expected")
  | some t =>
    let db2 :=
      { db with
        tasks := db.tasks.map
          (fun x => if x.id == taskId then { x with status := "completed" }
                    else x) }
    let db3 := createNotification db2 t.created_by "Task Completed"
      ("Task \"" ++ t.title ++ "\" is marked as done.") "task" (some t.id)
      notifFails
    (db3, Resp.ok "Task Completed")

/-- `POST /direct-requests` (src/index.js lines 165-188): insert the pending
request (checked for errors), then best-effort notify the receiver with a
deep link to the new row's id, then return the created row. -/
def createDirectRequest (db : DB) (sender_id receiver_id : Nat)
    (message : String) (price : ℚ) (location : String)
    (insertFails notifFails : Bool) : DB × Resp DirectRequest :=
  if insertFails then (db, Resp.err "insert failed")
  else
    let r : DirectRequest :=
      { id := db.nextId, sender_id := sender_id, receiver_id := receiver_id,
        message := message, price_offer := price, location_offer := location,
        status := "pending" }
    let db2 :=
      { db with
        direct_requests := db.direct_requests ++ [r],
        nextId := db.nextId + 1 }
    let db3 := createNotification db2 receiver_id "New Job Request"
      ("Offer: ₹" ++ toString price ++ " - " ++ message) "request"
      (some r.id) notifFails
    (db3, Resp.ok r)

/-- `POST /direct-requests/:id/convert` (src/index.js lines 190-216).
The lookup result is dereferenced without a guard (`reqData.sender_id`
throws on a missing row); the task insert's error is NOT destructured, so
the archiving update runs whether or not the insert succeeded, and the
response serialises whatever `data` the insert returned (possibly null). -/
def convertRequest (db : DB) (id : Nat)
    (insertTaskFails updateReqFails : Bool) : DB × Resp (Option Task) :=
  match db.direct_requests.find? (fun r => r.id == id) with
  | none => (db, Resp.runtimeError)
  | some r =>
    let step2 : DB × Option Task :=
      if insertTaskFails then (db, none)
      else
        let t : Task :=
          { id := db.nextId, created_by := r.sender_id,
            assigned_to := some r.receiver_id,
            title := "Direct: " ++ r.message.take 15,
            description := r.message, price := r.price_offer,
            location := r.location_offer, status := "in_progress",
            urgency := "Immediate", category := "Direct",
            created_at := db.nextId }
        ({ db with tasks := db.tasks ++ [t], nextId := db.nextId + 1 },
         some t)
    let db3 :=
      if updateReqFails then step2.1
      else
        { step2.1 with
          direct_requests := step2.1.direct_requests.map
            (fun x => if x.id == id then { x with status := "converted" }
                      else x) }
    (db3, Resp.ok step2.2)

/-- The ratings of every review ever received by `uid`
(`select('rating').eq('reviewed_user_id', uid)`). -/
def ratingsFor (db : DB) (uid : Nat) : List ℚ :=
  (db.reviews.filter (fun r => r.reviewed_user_id == uid)).map Review.rating

/-- `POST /reviews` (src/index.js lines 221-231): insert (error ignored),
re-read all ratings for the reviewed user (a `null` read makes `.reduce`
throw), average, persist (error ignored), answer 200. -/
def submitReview (db : DB) (task_id reviewer_id reviewed_user_id : Nat)
    (rating : ℚ) (comment : String)
    (insertFails selectFails updateFails : Bool) : DB × Resp String :=
  let db1 :=
    if insertFails then db
    else { db with reviews := db.reviews ++
            [{ task_id := task_id, reviewer_id := reviewer_id,
               reviewed_user_id := reviewed_user_id, rating := rating,
               comment := comment }] }
  if selectFails then (db1, Resp.runtimeError)
  else
    let ratings := ratingsFor db1 reviewed_user_id
    let avg := ratings.sum / (ratings.length : ℚ)
    let upd : User → User := fun u =>
      if u.id == reviewed_user_id then { u with rating_avg := avg } else u
    let db2 :=
      if updateFails then db1
      else { db1 with users := db1.users.map upd }
    (db2, Resp.ok "Review saved")

/-- Creator snapshot embedded by `users!created_by(name, department,
rating_avg, is_verified)` in `GET /tasks`. -/
structure CreatorSnapshot where
  name : String
  department : String
  rating_avg : ℚ
  is_verified : Bool
  deriving DecidableEq, Repr

/-- One element of the `GET /tasks` response. -/
structure TaskView where
  task : Task
  creator : Option CreatorSnapshot
  deriving DecidableEq, Repr

/-- The embedded join: the creator row, if any, projected to the selected
columns. -/
def creatorSnapshot (db : DB) (uid : Nat) : Option CreatorSnapshot :=
  (db.users.find? (fun u => u.id == uid)).map
    (fun u => ⟨u.name, u.department, u.rating_avg, u.is_verified⟩)

/-- `GET /tasks` (src/index.js lines 84-97): status=open filter, optional
category filter guarded by `if (category && category !== 'All')`, ordered
by `created_at` descending.  An absent query parameter is `""`. -/
def listTasks (db : DB) (category : String) : List TaskView :=
  let base := db.tasks.filter (fun t => t.status == "open")
  let filtered :=
    if category ≠ "" ∧ category ≠ "All" then
      base.filter (fun t => t.category == category)
    else base
  let sorted := filtered.insertionSort (fun a b => b.created_at ≤ a.created_at)
  sorted.map (fun t => { task := t, creator := creatorSnapshot db t.created_by })

/-- Projection selected by `GET /search/helpers`. -/
structure HelperView where
  id : Nat
  name : String
  department : String
  rating_avg : ℚ
  skills : List String
  status : String
  tasks_completed : Nat
  deriving DecidableEq, Repr

/-- The column projection of `GET /search/helpers`. -/
def helperView (u : User) : HelperView :=
  { id := u.id, name := u.name, department := u.department,
    rating_avg := u.rating_avg, skills := u.skills, status := u.status,
    tasks_completed := u.tasks_completed }

/-- `GET /search/helpers` (src/index.js lines 140-153): status=available,
skill filter guarded by `if (skill && skill !== 'All')` using the array
`contains` operator, query filter guarded by `if (query)` using
`ilike '%query%'`, ordered by `rating_avg` descending. -/
def searchHelpers (db : DB) (skill query : String) : List HelperView :=
  let base := db.users.filter (fun u => u.status == "available")
  let s1 :=
    if skill ≠ "" ∧ skill ≠ "All" then
      base.filter (fun u => u.skills.contains skill)
    else base
  let s2 :=
    if query ≠ "" then s1.filter (fun u => ilikeContains u.name query)
    else s1
  let sorted := s2.insertionSort (fun a b => b.rating_avg ≤ a.rating_avg)
  sorted.map helperView

/-! ### Concrete states used to instantiate the theorems -/

/-- A pending direct request used as a concrete instance. -/
def wReq : DirectRequest :=
  { id := 1, sender_id := 10, receiver_id := 20,
    message := "please fix my broken laptop", price_offer := 100,
    location_offer := "hostel", status := "pending" }

/-- A one-request database. -/
def wDBreq : DB :=
  { users := [], tasks := [], direct_requests := [wReq],
    notifications := [], reviews := [], nextId := 2 }

/-- An empty database. -/
def wDB0 : DB :=
  { users := [], tasks := [], direct_requests := [], notifications := [],
    reviews := [], nextId := 0 }

/-- An available user with one skill. -/
def wBob : User :=
  { id := 1, phone := "123", name := "Bob", department := "CS", year := "2",
    email := "bob@gmail.com", status := "available", is_verified := true,
    rating_avg := 5, skills := ["cooking"], tasks_completed := 0 }

/-- A one-user database. -/
def wDBbob : DB :=
  { users := [wBob], tasks := [], direct_requests := [], notifications := [],
    reviews := [], nextId := 2 }

/-- An open task created by the user above. -/
def wTask : Task :=
  { id := 3, created_by := 1, assigned_to := none, title := "Fix bike",
    description := "flat tire", price := 100, location := "campus",
    urgency := "Soon", category := "General", status := "open",
    created_at := 3 }

/-- A database with one user and one open task. -/
def wDBtask : DB :=
  { users := [wBob], tasks := [wTask], direct_requests := [],
    notifications := [], reviews := [], nextId := 4 }

/-! ### Claim statements and proofs -/

/-- Body of claim C9: on a missing request id the convert handler throws
before any write: the state is untouched and the failure is a runtime
error, not an explicit not-found response. -/
def ConvertMissingSpec (db : DB) (id : Nat) (f1 f2 : Bool) : Prop :=
  convertRequest db id f1 f2 = (db, Resp.runtimeError)

/-- Claim C9: for every request id with no matching DirectRequest row,
POST /direct-requests/:id/convert dereferences the null lookup result,
so it propagates as an unhandled runtime error, no Task is inserted and
no explicit not-found response is produced. -/
theorem convert_missing_request_runtime_error (db : DB) (id : Nat)
    (f1 f2 : Bool)
    (h : db.direct_requests.find? (fun r => r.id == id) = none) :
    ConvertMissingSpec db id f1 f2 := by
  unfold ConvertMissingSpec convertRequest
  rw [h]

/-- Claim C9 at a concrete input: id 5 matches no row of the one-request
database. -/
theorem convert_missing_request_runtime_error_witness :
    ConvertMissingSpec wDBreq 5 false false :=
  convert_missing_request_runtime_error wDBreq 5 false false (by decide)

/-- Body of claim C10: POST /reviews answers 200 "Review saved" whether or
not the review insert or the rating_avg update failed (their error results
are never read); only the ratings re-read is dereferenced. -/
def ReviewsAlwaysOkSpec (db : DB) (tid rid uid : Nat) (r : ℚ) (c : String)
    (insertFails updateFails : Bool) : Prop :=
  (submitReview db tid rid uid r c insertFails false updateFails).2 =
    Resp.ok "Review saved"

/-- Claim C10: the success response of POST /reviews is unconditional in
the insert and update outcomes. -/
theorem reviews_always_ok (db : DB) (tid rid uid : Nat) (r : ℚ) (c : String)
    (insertFails updateFails : Bool) :
    ReviewsAlwaysOkSpec db tid rid uid r c insertFails updateFails := by
  unfold ReviewsAlwaysOkSpec submitReview
  cases insertFails <;> cases updateFails <;> rfl

/-- Claim C10 at a concrete input: both the insert and the update fail,
the response is still 200 "Review saved". -/
theorem reviews_always_ok_witness :
    ReviewsAlwaysOkSpec wDBbob 7 8 1 4 "nice" true true :=
  reviews_always_ok wDBbob 7 8 1 4 "nice" true true

/-- Body of claim C4: completing a non-existent task answers an error and
writes nothing — in particular no notification row appears. -/
def CompleteMissingSpec (db : DB) (tid : Nat) (nf : Bool) : Prop :=
  (∃ msg, (completeTask db tid nf).2 = Resp.err msg) ∧
  (completeTask db tid nf).1.notifications = db.notifications ∧
  (completeTask db tid nf).1 = db

/-- Claim C4: PUT /tasks/:taskId/complete on an id matching no task row
returns an error response and creates no notification. -/
theorem complete_missing_task_no_notification (db : DB) (tid : Nat)
    (nf : Bool) (h : db.tasks.find? (fun t => t.id == tid) = none) :
    CompleteMissingSpec db tid nf := by
  unfold CompleteMissingSpec completeTask
  rw [h]
  exact ⟨⟨"single row expected", rfl⟩, rfl, rfl⟩

/-- Claim C4 at a concrete input: the empty database has no task 3. -/
theorem complete_missing_task_no_notification_witness :
    CompleteMissingSpec wDB0 3 false :=
  complete_missing_task_no_notification wDB0 3 false (by decide)

/-- Body of claim C6: the response (and the primary table effect) of the
two notification-triggering handlers is identical whether the notification
insert fails or succeeds. -/
def NotifIndependenceSpec (db : DB) (tid sid rid : Nat) (msg : String)
    (price : ℚ) (loc : String) (insertFails : Bool) : Prop :=
  (completeTask db tid true).2 = (completeTask db tid false).2 ∧
  (completeTask db tid true).1.tasks = (completeTask db tid false).1.tasks ∧
  (createDirectRequest db sid rid msg price loc insertFails true).2 =
    (createDirectRequest db sid rid msg price loc insertFails false).2 ∧
  (createDirectRequest db sid rid msg price loc insertFails true).1.direct_requests =
    (createDirectRequest db sid rid msg price loc insertFails false).1.direct_requests

/-- Claim C6: a failed notification insert is never propagated — task
completion and direct-request creation return the same response either
way. -/
theorem notification_failure_never_propagates (db : DB) (tid sid rid : Nat)
    (msg : String) (price : ℚ) (loc : String) (insertFails : Bool) :
    NotifIndependenceSpec db tid sid rid msg price loc insertFails := by
  unfold NotifIndependenceSpec completeTask createDirectRequest
    createNotification
  refine ⟨?_, ?_, ?_, ?_⟩ <;>
    cases hf : db.tasks.find? (fun t => t.id == tid) <;>
      cases insertFails <;> rfl

/-- Claim C6 at a concrete input. -/
theorem notification_failure_never_propagates_witness :
    NotifIndependenceSpec wDBbob 3 10 20 "hi" 50 "gate" false :=
  notification_failure_never_propagates wDBbob 3 10 20 "hi" 50 "gate" false

/-- The archiving update (`update status converted eq id`) rewrites exactly
the looked-up row when the lookup found one. -/
theorem find?_mark_converted (l : List DirectRequest) (id : Nat)
    (r : DirectRequest) (h : l.find? (fun x => x.id == id) = some r) :
    (l.map (fun x => if x.id == id then { x with status := "converted" }
                     else x)).find? (fun x => x.id == id) =
      some { r with status := "converted" } := by
  have hpred : ((fun x : DirectRequest => x.id == id) ∘
      (fun x : DirectRequest =>
        if x.id == id then { x with status := "converted" } else x)) =
      (fun x : DirectRequest => x.id == id) := by
    funext x
    by_cases hx : x.id = id <;> simp [hx]
  rw [List.find?_map, hpred, h]
  have hr : (r.id == id) = true :=
    @List.find?_some _ (fun x => x.id == id) r l h
  have hid : r.id = id := by simpa using hr
  simp [hid]

/-- Body of claim C1: on the success path the convert handler appends one
task copying the request's data with the fixed title/status/urgency/
category, returns it, and the stored request's status becomes converted. -/
def ConvertSuccessSpec (db : DB) (id : Nat) (r : DirectRequest) : Prop :=
  ∃ t : Task,
    (convertRequest db id false false).1.tasks = db.tasks ++ [t] ∧
    t.created_by = r.sender_id ∧
    t.assigned_to = some r.receiver_id ∧
    t.title = "Direct: " ++ r.message.take 15 ∧
    t.description = r.message ∧
    t.price = r.price_offer ∧
    t.location = r.location_offer ∧
    t.status = "in_progress" ∧
    t.urgency = "Immediate" ∧
    t.category = "Direct" ∧
    (convertRequest db id false false).2 = Resp.ok (some t) ∧
    (convertRequest db id false false).1.direct_requests.find?
      (fun x => x.id == id) = some { r with status := "converted" }

/-- Claim C1: POST /direct-requests/:id/convert derives the task from the
request exactly as specified and archives the request as converted. -/
theorem convert_request_builds_task (db : DB) (id : Nat) (r : DirectRequest)
    (h : db.direct_requests.find? (fun x => x.id == id) = some r) :
    ConvertSuccessSpec db id r := by
  unfold ConvertSuccessSpec convertRequest
  rw [h]
  simp only [Bool.false_eq_true, if_false]
  exact ⟨_, rfl, rfl, rfl, rfl, rfl, rfl, rfl, rfl, rfl, rfl, rfl,
    find?_mark_converted db.direct_requests id r h⟩

/-- Claim C1 at a concrete input: converting the pending request of the
one-request database. -/
theorem convert_request_builds_task_witness :
    ConvertSuccessSpec wDBreq 1 wReq :=
  convert_request_builds_task wDBreq 1 wReq (by decide)

/-- Counterexample to claim C3 as stated: with a failing task insert the
convert handler still archives the request — its status does not remain
"pending" but becomes "converted", while no task is inserted. -/
theorem convert_insert_failure_archives_cex :
    (convertRequest wDBreq 1 true false).1.tasks = wDBreq.tasks ∧
    wReq.status = "pending" ∧
    (convertRequest wDBreq 1 true false).1.direct_requests =
      [{ wReq with status := "converted" }] ∧
    ¬ (convertRequest wDBreq 1 true false).1.direct_requests =
        wDBreq.direct_requests := by
  refine ⟨by decide, by decide, by decide, by decide⟩

/-- Body of amended claim C3: when the task insert fails, no task is
inserted, yet the unchecked archiving update still runs: the request's
status becomes "converted", and the handler answers 200 with a null
task body. -/
def ConvertInsertFailSpec (db : DB) (id : Nat) (r : DirectRequest) : Prop :=
  (convertRequest db id true false).1.tasks = db.tasks ∧
  (convertRequest db id true false).1.direct_requests.find?
    (fun x => x.id == id) = some { r with status := "converted" } ∧
  (convertRequest db id true false).2 = Resp.ok none

/-- Amended claim C3: the task insert's error result is never read, so the
status update to converted is performed even after a failed task insert
(the request does not remain pending). -/
theorem convert_insert_failure_still_archives (db : DB) (id : Nat)
    (r : DirectRequest)
    (h : db.direct_requests.find? (fun x => x.id == id) = some r) :
    ConvertInsertFailSpec db id r := by
  unfold ConvertInsertFailSpec convertRequest
  rw [h]
  exact ⟨rfl, find?_mark_converted db.direct_requests id r h, rfl⟩

/-- Amended claim C3 at a concrete input. -/
theorem convert_insert_failure_still_archives_witness :
    ConvertInsertFailSpec wDBreq 1 wReq :=
  convert_insert_failure_still_archives wDBreq 1 wReq (by decide)

/-- Body of claim C2, for a phone with no existing row: login without an
email is a validation error; with a non-conforming email a domain error
(both leaving the store untouched); with a conforming email it creates and
returns a user with the documented defaults, and any later login with the
same phone returns that record unchanged — whatever name, department,
year or email the repeat request carries, with no email validation. -/
def LoginSpecC2 (db : DB) (phone name department year email : String) : Prop :=
  ((login db phone name department year "" false).1 = db ∧
   (login db phone name department year "" false).2 =
     Resp.err "College Email is required.") ∧
  (email ≠ "" → endsWithStr (lowerStr email) COLLEGE_DOMAIN = false →
    (login db phone name department year email false).1 = db ∧
    (login db phone name department year email false).2 =
      Resp.err ("Must use an official " ++ COLLEGE_DOMAIN ++ " email.")) ∧
  (email ≠ "" → endsWithStr (lowerStr email) COLLEGE_DOMAIN = true →
    ∃ u : User,
      (login db phone name department year email false).2 = Resp.ok u ∧
      (login db phone name department year email false).1.users =
        db.users ++ [u] ∧
      u.status = "available" ∧ u.is_verified = true ∧ u.rating_avg = 5 ∧
      ∀ name2 department2 year2 email2 insertFails2,
        login (login db phone name department year email false).1
            phone name2 department2 year2 email2 insertFails2 =
          ((login db phone name department year email false).1, Resp.ok u))

/-- The row inserted on first registration (src/index.js lines 47-53 plus
the store defaults for the unspecified columns). -/
def registeredUser (db : DB) (phone name department year email : String) :
    User :=
  { id := db.nextId, phone := phone, name := name, department := department,
    year := year, email := email, status := "available",
    is_verified := true, rating_avg := 5, skills := [],
    tasks_completed := 0 }

/-- A login against a registered phone returns the stored row and performs
no write at all. -/
theorem login_existing (db : DB) (phone name department year email : String)
    (f : Bool) (u : User) (hu : findUserByPhone db phone = some u) :
    login db phone name department year email f = (db, Resp.ok u) := by
  unfold login
  rw [hu]

/-- A first login with a conforming email inserts `registeredUser` and
returns it. -/
theorem login_new (db : DB) (phone name department year email : String)
    (hnew : findUserByPhone db phone = none) (hne : email ≠ "")
    (hdom : endsWithStr (lowerStr email) COLLEGE_DOMAIN = true) :
    login db phone name department year email false =
      ({ db with
         users := db.users ++ [registeredUser db phone name department year email],
         nextId := db.nextId + 1 },
       Resp.ok (registeredUser db phone name department year email)) := by
  unfold login registeredUser
  rw [hnew]
  simp [hne, hdom]

/-- Claim C2: first-login validation and registration defaults of
POST /login, and the idempotent unvalidated repeat login. -/
theorem login_registration_flow (db : DB)
    (phone name department year email : String)
    (hnew : findUserByPhone db phone = none) :
    LoginSpecC2 db phone name department year email := by
  unfold LoginSpecC2
  refine ⟨?_, ?_, ?_⟩
  · have hstep : login db phone name department year "" false =
        (db, Resp.err "College Email is required.") := by
      unfold login
      rw [hnew]
      rfl
    rw [hstep]
    exact ⟨rfl, rfl⟩
  · intro hne hdom
    have hstep : login db phone name department year email false =
        (db, Resp.err ("Must use an official " ++ COLLEGE_DOMAIN ++ " email.")) := by
      unfold login
      rw [hnew]
      simp [hne, hdom]
    rw [hstep]
    exact ⟨rfl, rfl⟩
  · intro hne hdom
    refine ⟨registeredUser db phone name department year email, ?_, ?_,
      rfl, rfl, rfl, ?_⟩
    · rw [login_new db phone name department year email hnew hne hdom]
    · rw [login_new db phone name department year email hnew hne hdom]
    · intro name2 department2 year2 email2 insertFails2
      rw [login_new db phone name department year email hnew hne hdom]
      refine login_existing _ _ _ _ _ _ _ _ ?_
      unfold findUserByPhone at hnew ⊢
      rw [List.find?_append, hnew]
      simp [registeredUser]

/-- Claim C2 at a concrete input: phone 123 is not registered in the empty
database. -/
theorem login_registration_flow_witness :
    LoginSpecC2 wDB0 "123" "Bob" "CS" "2" "Bob@Gmail.Com" :=
  login_registration_flow wDB0 "123" "Bob" "CS" "2" "Bob@Gmail.Com"
    (by decide)

/-- Body of claim C7: GET /tasks returns exactly the open tasks (with the
category filter applied unless the parameter is absent or the literal
"All"), each joined with its creator's snapshot, in descending creation
order; and category=All coincides with no category. -/
def ListTasksSpec (db : DB) (c : String) : Prop :=
  listTasks db "All" = listTasks db "" ∧
  (∀ v ∈ listTasks db c,
     v.task ∈ db.tasks ∧ v.task.status = "open" ∧
     (c ≠ "" → c ≠ "All" → v.task.category = c) ∧
     v.creator = creatorSnapshot db v.task.created_by) ∧
  (∀ t ∈ db.tasks, t.status = "open" →
     (c ≠ "" → c ≠ "All" → t.category = c) →
     (⟨t, creatorSnapshot db t.created_by⟩ : TaskView) ∈ listTasks db c) ∧
  List.Pairwise (fun a b : TaskView => b.task.created_at ≤ a.task.created_at)
    (listTasks db c)

/-- Claim C7: the characterization of GET /tasks above holds for every
database and category parameter. -/
theorem list_tasks_spec_holds (db : DB) (c : String) : ListTasksSpec db c := by
  unfold ListTasksSpec
  refine ⟨?_, ?_, ?_, ?_⟩
  · unfold listTasks
    simp
  · intro v hv
    by_cases hc : c ≠ "" ∧ c ≠ "All"
    · simp only [listTasks, if_pos hc] at hv
      rw [List.mem_map] at hv
      obtain ⟨t, ht, rfl⟩ := hv
      rw [List.mem_insertionSort, List.mem_filter, List.mem_filter] at ht
      obtain ⟨⟨htask, hopen⟩, hcat⟩ := ht
      exact ⟨htask, by simpa using hopen, fun _ _ => by simpa using hcat, rfl⟩
    · simp only [listTasks, if_neg hc] at hv
      rw [List.mem_map] at hv
      obtain ⟨t, ht, rfl⟩ := hv
      rw [List.mem_insertionSort, List.mem_filter] at ht
      obtain ⟨htask, hopen⟩ := ht
      push_neg at hc
      exact ⟨htask, by simpa using hopen,
        fun h1 h2 => (h2 (hc h1)).elim, rfl⟩
  · intro t ht hopen hcat
    by_cases hc : c ≠ "" ∧ c ≠ "All"
    · simp only [listTasks, if_pos hc]
      rw [List.mem_map]
      refine ⟨t, ?_, rfl⟩
      rw [List.mem_insertionSort, List.mem_filter, List.mem_filter]
      exact ⟨⟨ht, by simpa using hopen⟩, by simpa using hcat hc.1 hc.2⟩
    · simp only [listTasks, if_neg hc]
      rw [List.mem_map]
      refine ⟨t, ?_, rfl⟩
      rw [List.mem_insertionSort, List.mem_filter]
      exact ⟨ht, by simpa using hopen⟩
  · simp only [listTasks]
    rw [List.pairwise_map]
    haveI : IsTotal Task (fun a b => b.created_at ≤ a.created_at) :=
      ⟨fun a b => Nat.le_total b.created_at a.created_at⟩
    haveI : IsTrans Task (fun a b => b.created_at ≤ a.created_at) :=
      ⟨fun _ _ _ hab hbc => Nat.le_trans hbc hab⟩
    exact List.sorted_insertionSort _ _

/-- Claim C7 at a concrete input (one open task, its creator present). -/
theorem list_tasks_spec_holds_witness : ListTasksSpec wDBtask "All" :=
  list_tasks_spec_holds wDBtask "All"

/-- Counterexample to claim C8 as stated: the provided skill value "All"
is excluded by the guard `if (skill && skill !== 'All')`, so the search
applies no skill filter at all: the available user is returned although
the user's skills set does not contain "All". -/
theorem search_skill_all_unfiltered_cex :
    searchHelpers wDBbob "All" "" = [helperView wBob] ∧
    "All" ∉ wBob.skills ∧
    "All" ∉ (helperView wBob).skills := by
  refine ⟨by decide, by decide, by decide⟩

/-- Body of amended claim C8: the search returns exactly the available
users — restricted by the skill filter only for a provided skill other
than the empty string and the literal "All", and by the case-insensitive
name filter for a provided non-empty query, with AND semantics — ordered
by rating_avg descending. -/
def SearchHelpersSpec (db : DB) (skill query : String) : Prop :=
  (∀ v ∈ searchHelpers db skill query,
    ∃ u ∈ db.users, v = helperView u ∧ u.status = "available" ∧
      (skill ≠ "" → skill ≠ "All" → skill ∈ u.skills) ∧
      (query ≠ "" → ilikeContains u.name query = true)) ∧
  (∀ u ∈ db.users, u.status = "available" →
    (skill ≠ "" → skill ≠ "All" → skill ∈ u.skills) →
    (query ≠ "" → ilikeContains u.name query = true) →
    helperView u ∈ searchHelpers db skill query) ∧
  List.Pairwise (fun a b : HelperView => b.rating_avg ≤ a.rating_avg)
    (searchHelpers db skill query)

/-- Amended claim C8: the characterization of GET /search/helpers above
holds for every database and every pair of filter parameters. -/
theorem search_helpers_spec_holds (db : DB) (skill query : String) :
    SearchHelpersSpec db skill query := by
  unfold SearchHelpersSpec
  refine ⟨?_, ?_, ?_⟩
  · intro v hv
    by_cases hs : skill ≠ "" ∧ skill ≠ "All" <;>
      by_cases hq : query ≠ ""
    · simp only [searchHelpers, if_pos hs, if_pos hq] at hv
      rw [List.mem_map] at hv
      obtain ⟨u, hu, rfl⟩ := hv
      rw [List.mem_insertionSort, List.mem_filter, List.mem_filter,
        List.mem_filter] at hu
      obtain ⟨⟨⟨huser, havail⟩, hskill⟩, hlike⟩ := hu
      exact ⟨u, huser, rfl, by simpa using havail,
        fun _ _ => by simpa using hskill, fun _ => hlike⟩
    · simp only [searchHelpers, if_pos hs, if_neg hq] at hv
      rw [List.mem_map] at hv
      obtain ⟨u, hu, rfl⟩ := hv
      rw [List.mem_insertionSort, List.mem_filter, List.mem_filter] at hu
      obtain ⟨⟨huser, havail⟩, hskill⟩ := hu
      exact ⟨u, huser, rfl, by simpa using havail,
        fun _ _ => by simpa using hskill, fun hq2 => (hq hq2).elim⟩
    · simp only [searchHelpers, if_neg hs, if_pos hq] at hv
      rw [List.mem_map] at hv
      obtain ⟨u, hu, rfl⟩ := hv
      rw [List.mem_insertionSort, List.mem_filter, List.mem_filter] at hu
      obtain ⟨⟨huser, havail⟩, hlike⟩ := hu
      push_neg at hs
      exact ⟨u, huser, rfl, by simpa using havail,
        fun h1 h2 => (h2 (hs h1)).elim, fun _ => hlike⟩
    · simp only [searchHelpers, if_neg hs, if_neg hq] at hv
      rw [List.mem_map] at hv
      obtain ⟨u, hu, rfl⟩ := hv
      rw [List.mem_insertionSort, List.mem_filter] at hu
      obtain ⟨huser, havail⟩ := hu
      push_neg at hs
      exact ⟨u, huser, rfl, by simpa using havail,
        fun h1 h2 => (h2 (hs h1)).elim, fun hq2 => (hq hq2).elim⟩
  · intro u hu havail hskill hlike
    by_cases hs : skill ≠ "" ∧ skill ≠ "All" <;>
      by_cases hq : query ≠ ""
    · simp only [searchHelpers, if_pos hs, if_pos hq]
      rw [List.mem_map]
      refine ⟨u, ?_, rfl⟩
      rw [List.mem_insertionSort, List.mem_filter, List.mem_filter,
        List.mem_filter]
      exact ⟨⟨⟨hu, by simpa using havail⟩,
        by simpa using hskill hs.1 hs.2⟩, hlike hq⟩
    · simp only [searchHelpers, if_pos hs, if_neg hq]
      rw [List.mem_map]
      refine ⟨u, ?_, rfl⟩
      rw [List.mem_insertionSort, List.mem_filter, List.mem_filter]
      exact ⟨⟨hu, by simpa using havail⟩, by simpa using hskill hs.1 hs.2⟩
    · simp only [searchHelpers, if_neg hs, if_pos hq]
      rw [List.mem_map]
      refine ⟨u, ?_, rfl⟩
      rw [List.mem_insertionSort, List.mem_filter, List.mem_filter]
      exact ⟨⟨hu, by simpa using havail⟩, hlike hq⟩
    · simp only [searchHelpers, if_neg hs, if_neg hq]
      rw [List.mem_map]
      refine ⟨u, ?_, rfl⟩
      rw [List.mem_insertionSort, List.mem_filter]
      exact ⟨hu, by simpa using havail⟩
  · simp only [searchHelpers]
    rw [List.pairwise_map]
    simp only [helperView]
    haveI : IsTotal User (fun a b => b.rating_avg ≤ a.rating_avg) :=
      ⟨fun a b => le_total b.rating_avg a.rating_avg⟩
    haveI : IsTrans User (fun a b => b.rating_avg ≤ a.rating_avg) :=
      ⟨fun _ _ _ hab hbc => le_trans hbc hab⟩
    exact List.sorted_insertionSort _ _

/-- Amended claim C8 at a concrete input. -/
theorem search_helpers_spec_holds_witness : SearchHelpersSpec wDBbob "All" "" :=
  search_helpers_spec_holds wDBbob "All" ""

/-! ### Review averaging (claim C5) -/

/-- The review row inserted by POST /reviews. -/
def mkReview (tid rid uid : Nat) (r : ℚ) (c : String) : Review :=
  ⟨tid, rid, uid, r, c⟩

/-- One fully successful POST /reviews call. -/
def reviewStep (tid rid uid : Nat) (c : String) (db : DB) (r : ℚ) : DB :=
  (submitReview db tid rid uid r c false false false).1

/-- A sequence of POST /reviews calls for the same reviewed user, in
submission order. -/
def submitAll (db : DB) (tid rid uid : Nat) (c : String) (rs : List ℚ) :
    DB :=
  rs.foldl (reviewStep tid rid uid c) db

/-- The persisted rating_avg of user `uid`, when the user exists. -/
def userRating (db : DB) (uid : Nat) : Option ℚ :=
  (db.users.find? (fun u => u.id == uid)).map User.rating_avg

/-- Appending a review for `uid` appends its rating to the ratings ever
received by `uid`. -/
theorem ratingsFor_append_self (db : DB) (tid rid uid : Nat) (c : String)
    (r : ℚ) :
    ratingsFor { db with reviews := db.reviews ++ [mkReview tid rid uid r c] }
        uid =
      ratingsFor db uid ++ [r] := by
  unfold ratingsFor mkReview
  simp [List.filter_append]

/-- The rating_avg update (`update rating_avg eq id`) rewrites exactly the
looked-up user row. -/
theorem find?_set_rating (l : List User) (uid : Nat) (q : ℚ) (u : User)
    (h : l.find? (fun x => x.id == uid) = some u) :
    (l.map (fun x => if x.id == uid then { x with rating_avg := q }
                     else x)).find? (fun x => x.id == uid) =
      some { u with rating_avg := q } := by
  have hpred : ((fun x : User => x.id == uid) ∘
      (fun x : User =>
        if x.id == uid then { x with rating_avg := q } else x)) =
      (fun x : User => x.id == uid) := by
    funext x
    by_cases hx : x.id = uid <;> simp [hx]
  rw [List.find?_map, hpred, h]
  have hr : (u.id == uid) = true :=
    @List.find?_some _ (fun x => x.id == uid) u l h
  have hid : u.id = uid := by simpa using hr
  simp [hid]

/-- The users table after one successful POST /reviews: the reviewed user's
rating_avg is replaced by the mean over all received ratings including the
new one. -/
theorem reviewStep_users (db : DB) (tid rid uid : Nat) (c : String) (r : ℚ) :
    (reviewStep tid rid uid c db r).users =
      db.users.map (fun x =>
        if x.id == uid then
          { x with rating_avg :=
              (ratingsFor db uid ++ [r]).sum /
              ((ratingsFor db uid ++ [r]).length : ℚ) }
        else x) := by
  have h0 : (reviewStep tid rid uid c db r).users =
      db.users.map (fun x =>
        if x.id == uid then
          { x with rating_avg :=
              (ratingsFor
                  { db with reviews := db.reviews ++ [mkReview tid rid uid r c] }
                  uid).sum /
              ((ratingsFor
                  { db with reviews := db.reviews ++ [mkReview tid rid uid r c] }
                  uid).length : ℚ) }
        else x) := rfl
  rw [h0]
  simp only [ratingsFor_append_self]

/-- POST /reviews appends exactly one rating for the reviewed user. -/
theorem reviewStep_ratings (db : DB) (tid rid uid : Nat) (c : String)
    (r : ℚ) :
    ratingsFor (reviewStep tid rid uid c db r) uid =
      ratingsFor db uid ++ [r] := by
  have h0 : ratingsFor (reviewStep tid rid uid c db r) uid =
      ratingsFor { db with reviews := db.reviews ++ [mkReview tid rid uid r c] }
        uid := rfl
  rw [h0, ratingsFor_append_self]

/-- The reviewed user's row survives a POST /reviews call, with the new
average installed. -/
theorem find?_reviewStep (db : DB) (tid rid uid : Nat) (c : String) (r : ℚ)
    (u : User) (hu : db.users.find? (fun x => x.id == uid) = some u) :
    (reviewStep tid rid uid c db r).users.find? (fun x => x.id == uid) =
      some { u with rating_avg :=
        (ratingsFor db uid ++ [r]).sum /
        ((ratingsFor db uid ++ [r]).length : ℚ) } := by
  rw [reviewStep_users, find?_set_rating db.users uid _ u hu]

/-- The persisted average after one successful POST /reviews call. -/
theorem userRating_reviewStep (db : DB) (tid rid uid : Nat) (c : String)
    (r : ℚ) (u : User)
    (hu : db.users.find? (fun x => x.id == uid) = some u) :
    userRating (reviewStep tid rid uid c db r) uid =
      some ((ratingsFor db uid ++ [r]).sum /
        ((ratingsFor db uid ++ [r]).length : ℚ)) := by
  unfold userRating
  rw [find?_reviewStep db tid rid uid c r u hu]
  rfl

/-- After any non-empty run of successful POST /reviews calls the persisted
average is the mean over the previously received ratings and the newly
submitted ones. -/
theorem submitAll_userRating (tid rid uid : Nat) (c : String) :
    ∀ (rs : List ℚ) (db : DB), rs ≠ [] →
      (∃ u, db.users.find? (fun x => x.id == uid) = some u) →
      userRating (submitAll db tid rid uid c rs) uid =
        some ((ratingsFor db uid ++ rs).sum /
          ((ratingsFor db uid ++ rs).length : ℚ)) := by
  intro rs
  induction rs with
  | nil => intro db h _; exact absurd rfl h
  | cons r rest ih =>
    intro db _ hsome
    obtain ⟨u, hu⟩ := hsome
    cases rest with
    | nil =>
      have h1 : submitAll db tid rid uid c [r] =
          reviewStep tid rid uid c db r := rfl
      rw [h1, userRating_reviewStep db tid rid uid c r u hu]
    | cons r2 rest2 =>
      have h1 : submitAll db tid rid uid c (r :: r2 :: rest2) =
          submitAll (reviewStep tid rid uid c db r) tid rid uid c
            (r2 :: rest2) := rfl
      rw [h1]
      have h2 := ih (reviewStep tid rid uid c db r) (by simp)
        ⟨_, find?_reviewStep db tid rid uid c r u hu⟩
      rw [h2, reviewStep_ratings, List.append_assoc]
      rfl

/-- Body of claim C5: after submitting the ratings `rs` (in that order) for
a user with no prior reviews, the persisted rating_avg is their arithmetic
mean, and submitting any permutation `rs2` of them instead yields the very
same final value. -/
def ReviewAverageSpec (db : DB) (tid rid uid : Nat) (c : String)
    (rs rs2 : List ℚ) : Prop :=
  userRating (submitAll db tid rid uid c rs) uid =
    some (rs.sum / (rs.length : ℚ)) ∧
  userRating (submitAll db tid rid uid c rs2) uid =
    some (rs.sum / (rs.length : ℚ))

/-- Claim C5: N review submissions leave rating_avg = (r1+...+rN)/N, the
mean over every review the user ever received, independent of submission
order. -/
theorem review_average_permutation_invariant (db : DB) (tid rid uid : Nat)
    (c : String) (rs rs2 : List ℚ) (hne : rs ≠ []) (hperm : rs2.Perm rs)
    (hfresh : ratingsFor db uid = [])
    (hsome : ∃ u, db.users.find? (fun x => x.id == uid) = some u) :
    ReviewAverageSpec db tid rid uid c rs rs2 := by
  unfold ReviewAverageSpec
  constructor
  · have h := submitAll_userRating tid rid uid c rs db hne hsome
    rw [hfresh] at h
    simpa using h
  · have hne2 : rs2 ≠ [] := by
      intro h0
      subst h0
      exact hne hperm.symm.eq_nil
    have h := submitAll_userRating tid rid uid c rs2 db hne2 hsome
    rw [hfresh] at h
    simp only [List.nil_append] at h
    rw [h, hperm.sum_eq, hperm.length_eq]

/-- Claim C5 at a concrete input: ratings 4 then 6, or 6 then 4, for the
fresh user both end at mean 5. -/
theorem review_average_permutation_invariant_witness :
    ReviewAverageSpec wDBbob 7 8 1 "nice" [4, 6] [6, 4] :=
  review_average_permutation_invariant wDBbob 7 8 1 "nice" [4, 6] [6, 4]
    (by decide) (by decide) (by decide) ⟨wBob, by decide⟩

end Marketplace
